import Mathlib

/-!
Verification development for the filmy-ai video-editing service.

The repository exposes an instruction parser
(`app/services/instruction_service.py`) and a clip-editing pipeline
(`app/services/video_service.py`).  This file gives a shallow embedding of
the code paths those services implement and proves properties about them.

Modelling conventions:
* JSON-decoded Python values are the inductive type `JValue`; Python's
  truthiness, `==`, `float()`, `int()` and `str()` are modelled on it.
* Python floats are modelled with exact rational arithmetic (`ℚ`); IEEE
  rounding is not modelled.  `float()` / `int()` applied to numeric string
  literals is not modelled (no argument below exercises it) and is mapped
  to the failure case like any other non-numeric string.
* Exceptions are modelled with `Except PyExn`; the library calls the
  service delegates to (moviepy, ffmpeg, PIL, requests, json) are oracle
  parameters, while every branch, conversion and handler written in the
  repository itself is embedded explicitly.
-/

/-- A JSON value as decoded by Python's `json` module. -/
inductive JValue where
  | jnull : JValue
  | jbool : Bool → JValue
  | jnum : ℚ → JValue
  | jstr : String → JValue
  | jarr : List JValue → JValue
  | jobj : List (String × JValue) → JValue

mutual

/-- Structural boolean equality on `JValue`. -/
def beqJ : JValue → JValue → Bool
  | .jnull, .jnull => true
  | .jbool a, .jbool b => a == b
  | .jnum a, .jnum b => a == b
  | .jstr a, .jstr b => a == b
  | .jarr xs, .jarr ys => beqJList xs ys
  | .jobj xs, .jobj ys => beqJObj xs ys
  | _, _ => false

/-- Structural boolean equality on lists of `JValue`. -/
def beqJList : List JValue → List JValue → Bool
  | [], [] => true
  | x :: xs, y :: ys => beqJ x y && beqJList xs ys
  | _, _ => false

/-- Structural boolean equality on association lists of `JValue`. -/
def beqJObj : List (String × JValue) → List (String × JValue) → Bool
  | [], [] => true
  | (k, v) :: xs, (l, w) :: ys => k == l && beqJ v w && beqJObj xs ys
  | _, _ => false

end

mutual

theorem beqJ_iff : ∀ a b : JValue, beqJ a b = true ↔ a = b
  | .jnull, b => by cases b <;> simp [beqJ]
  | .jbool a, b => by cases b <;> simp [beqJ]
  | .jnum a, b => by cases b <;> simp [beqJ]
  | .jstr a, b => by cases b <;> simp [beqJ]
  | .jarr xs, b => by
      cases b <;> simp [beqJ]
      exact beqJList_iff xs _
  | .jobj xs, b => by
      cases b <;> simp [beqJ]
      exact beqJObj_iff xs _

theorem beqJList_iff : ∀ xs ys : List JValue, beqJList xs ys = true ↔ xs = ys
  | [], ys => by cases ys <;> simp [beqJList]
  | x :: xs, ys => by
      cases ys with
      | nil => simp [beqJList]
      | cons y ys => simp [beqJList, beqJ_iff x y, beqJList_iff xs ys]

theorem beqJObj_iff : ∀ xs ys : List (String × JValue), beqJObj xs ys = true ↔ xs = ys
  | [], ys => by cases ys <;> simp [beqJObj]
  | (k, v) :: xs, ys => by
      cases ys with
      | nil => simp [beqJObj]
      | cons y ys =>
          obtain ⟨l, w⟩ := y
          simp [beqJObj, beqJ_iff v w, beqJObj_iff xs ys, and_assoc]

end

instance : BEq JValue := ⟨beqJ⟩

instance : DecidableEq JValue := fun a b =>
  decidable_of_iff (beqJ a b = true) (beqJ_iff a b)

/-- Python exceptions, split by the classes the repository catches
separately: `ValueError` and `TypeError` (caught by the inner handlers in
`video_service.py`) versus everything else. -/
inductive PyExn where
  | valueError : PyExn
  | typeError : PyExn
  | otherError : String → PyExn
  deriving DecidableEq

/-- Models `str(e)` on a caught exception. -/
def PyExn.msg : PyExn → String
  | .valueError => "ValueError"
  | .typeError => "TypeError"
  | .otherError m => m

/-- Python truthiness of a JSON-decoded value. -/
def truthy : JValue → Bool
  | .jnull => false
  | .jbool b => b
  | .jnum q => decide (q ≠ 0)
  | .jstr s => decide (s ≠ "")
  | .jarr xs => !xs.isEmpty
  | .jobj fs => !fs.isEmpty

/-- Truthiness of `dict.get(k)`: a missing key gives `None`, which is falsy. -/
def truthyOpt : Option JValue → Bool
  | none => false
  | some v => truthy v

/-- The numeric value Python assigns to a JSON number or bool
(`True == 1`, `False == 0`). -/
def pyNumVal : JValue → Option ℚ
  | .jnum q => some q
  | .jbool b => some (if b then 1 else 0)
  | _ => none

/-- Python `==` on JSON-decoded values.  Numbers and booleans compare by
numeric value; other values compare structurally.  (Python dict equality
ignores insertion order; the embedded code never compares two dicts, so
structural comparison on objects is harmless.) -/
def pyEqJ (a b : JValue) : Bool :=
  match pyNumVal a, pyNumVal b with
  | some x, some y => x == y
  | _, _ => a == b

/-- Models Python `float()` on a JSON-decoded value.  Numeric string
literals (`float("2")`) are not modelled and fall into the `ValueError`
case together with every other string. -/
def pyFloat : JValue → Except PyExn ℚ
  | .jnum q => .ok q
  | .jbool b => .ok (if b then 1 else 0)
  | .jstr _ => .error .valueError
  | .jnull => .error .typeError
  | .jarr _ => .error .typeError
  | .jobj _ => .error .typeError

/-- Models Python `int()` on a JSON-decoded value (floats truncate toward
zero).  Numeric string literals are not modelled, as with `pyFloat`. -/
def pyInt : JValue → Except PyExn ℤ
  | .jnum q => .ok (if 0 ≤ q then ⌊q⌋ else ⌈q⌉)
  | .jbool b => .ok (if b then 1 else 0)
  | .jstr _ => .error .valueError
  | .jnull => .error .typeError
  | .jarr _ => .error .typeError
  | .jobj _ => .error .typeError

/-- Models Python `str()` on a JSON-decoded value.  The repository only
ever tests the result for emptiness (`if not content`), which this
rendering reproduces faithfully: only `str` values can render empty. -/
def pyStr : JValue → String
  | .jstr s => s
  | .jnull => "None"
  | .jbool true => "True"
  | .jbool false => "False"
  | .jnum q => toString q
  | .jarr _ => "[...]"
  | .jobj _ => "\x7b...\x7d"

/-- Python dict lookup on the association list of a JSON object. -/
def lookupKey (k : String) : List (String × JValue) → Option JValue
  | [] => none
  | (a, v) :: rest => if a = k then some v else lookupKey k rest

/-- Models `v.get(k)`: `None` (here `none`) when the key is missing, and an
`AttributeError` when `v` is not a dict. -/
def jGetOpt (v : JValue) (k : String) : Except PyExn (Option JValue) :=
  match v with
  | .jobj fs => .ok (lookupKey k fs)
  | _ => .error (.otherError "AttributeError")

/-- Models `v.get(k, d)`. -/
def jGetD (v : JValue) (k : String) (d : JValue) : Except PyExn JValue :=
  (jGetOpt v k).map (fun o => o.getD d)

/-- Models a `try`/`except (ValueError, TypeError)` block that keeps a
previous value on those exceptions and lets every other exception
propagate. -/
def tryVT {α : Type} (m : Except PyExn α) (fallback : α) : Except PyExn α :=
  match m with
  | .error .valueError => .ok fallback
  | .error .typeError => .ok fallback
  | r => r

/-- Models Python's `str.lower()` (ASCII case folding, which covers every
keyword the parser tests). -/
def pyLower (s : String) : String :=
  ⟨s.data.map Char.toLower⟩

/-- `subOccurs needle hay`: does `needle` occur as a contiguous sublist of
`hay`?  This is Python's `needle in hay` on strings. -/
def subOccurs (needle : List Char) : List Char → Bool
  | [] => needle.isEmpty
  | c :: rest => needle.isPrefixOf (c :: rest) || subOccurs needle rest

/-- Python's substring test `sub in hay`. -/
def containsSub (hay sub : String) : Bool :=
  subOccurs sub.data hay.data

/-! ## The rule-based instruction parser

Embeds `_rule_based_parse` from `app/services/instruction_service.py`
(lines 17-37).  The Python function appends to `ops` group by group; the
embedding writes the same appends as a concatenation in the same order. -/

/-- The operation dict `{"type": "denoise", "params": {}}`. -/
def denoiseOp : JValue := .jobj [("type", .jstr "denoise"), ("params", .jobj [])]

/-- The operation dict `{"type": "stabilize", "params": {}}`. -/
def stabilizeOp : JValue := .jobj [("type", .jstr "stabilize"), ("params", .jobj [])]

/-- The operation dict `{"type": "crop", "params": {"aspect": "16:9"}}`. -/
def cropOp : JValue := .jobj [("type", .jstr "crop"), ("params", .jobj [("aspect", .jstr "16:9")])]

/-- The operation dict `{"type": "resize", "params": {}}`. -/
def resizeOp : JValue := .jobj [("type", .jstr "resize"), ("params", .jobj [])]

/-- The operation dict `{"type": "upscale", "params": {}}`. -/
def upscaleOp : JValue := .jobj [("type", .jstr "upscale"), ("params", .jobj [])]

/-- The `params` dict of the `color_adjust` operation: `{"brightness": 0.1}`
when `"bright"` occurs in the lowered instruction, else `{}`. -/
def colorParams (inst : String) : JValue :=
  if containsSub inst "bright" then .jobj [("brightness", .jnum (1/10))] else .jobj []

/-- Embeds `_rule_based_parse` (instruction_service.py lines 17-37). -/
def ruleBasedParse (instruction : String) : List JValue :=
  let inst := pyLower instruction
  let ops : List JValue :=
    (if containsSub inst "denoise" || containsSub inst "noise" || containsSub inst "remove noise"
      then [denoiseOp] else [])
    ++ (if containsSub inst "stabil" || containsSub inst "steady"
      then [stabilizeOp] else [])
    ++ (if containsSub inst "brightness" || containsSub inst "color" || containsSub inst "contrast"
      then [.jobj [("type", .jstr "color_adjust"), ("params", colorParams inst)]] else [])
    ++ (if containsSub inst "crop" || containsSub inst "resize" || containsSub inst "aspect"
      then (if containsSub inst "16:9" then [cropOp] else [resizeOp]) else [])
  if ops.isEmpty then [upscaleOp] else ops


/-! ## The LLM-backed instruction parser

Embeds `parse_instruction` from `app/services/instruction_service.py`
(lines 40-101).  The external pieces — the `requests` call chain and the
`json` codec — are modelled as follows: the whole
`requests.post` / `raise_for_status` / `resp.json()` chain either raises
(one `exn` outcome, also covering an `ImportError` on `import requests`)
or yields a decoded JSON reply; `json.dumps` and `json.loads` are oracle
parameters (`loads` returns `none` exactly when `json.loads` raises). -/

/-- Outcome of the external Generative Language API call. -/
inductive LLMOutcome where
  | exn : LLMOutcome
  | reply : JValue → LLMOutcome

/-- Models `re.search(r"(\[.*\])", text, re.S)`: with a greedy `.*` and
DOTALL, the match (if any) spans from the first `[` to the last `]` after
it. -/
def reSearchArr (s : String) : Option String :=
  match s.data.findIdx? (· == '[') with
  | none => none
  | some i =>
    match s.data.reverse.findIdx? (· == ']') with
    | none => none
    | some jr =>
      let j := s.data.length - 1 - jr
      if i < j then some ⟨(s.data.drop i).take (j - i + 1)⟩ else none


/-- Models `a or b` on Python values: `a` if truthy, else `b`. -/
def pyOr (a b : JValue) : JValue :=
  if truthy a then a else b

/-- Embeds the reply-text extraction of `parse_instruction`
(instruction_service.py lines 74-87): probe `candidates[0]`'s
`content`/`output`/`text` fields, then the top-level `output`/`content`
fields, and finally fall back to `json.dumps` of the whole reply.  The
result can be any JSON value, since Python's `or` keeps whichever operand
is truthy. -/
def extractText (dumps : JValue → String) (data : JValue) : JValue :=
  let text : JValue := .jstr ""
  let text :=
    match data with
    | .jobj fs =>
      let text :=
        match lookupKey "candidates" fs with
        | some (.jarr (c :: _)) =>
          match c with
          | .jobj cf =>
            pyOr (pyOr (pyOr ((lookupKey "content" cf).getD .jnull)
                  ((lookupKey "output" cf).getD .jnull))
                ((lookupKey "text" cf).getD .jnull))
              (.jstr "")
          | _ => text
        | _ => text
      if truthy text then text
      else pyOr (pyOr ((lookupKey "output" fs).getD .jnull)
            ((lookupKey "content" fs).getD .jnull)) (.jstr "")
    | _ => text
  if truthy text then text else .jstr (dumps data)

/-- Embeds `parse_instruction` (instruction_service.py lines 40-101).
`key` is `os.environ.get("GEMINI_API_KEY")`; `outcome` the external call's
outcome; `dumps`/`loads` the `json` codec.  A non-string extracted text
makes `re.search` raise a `TypeError`, which the enclosing handler turns
into the rule-based fallback, exactly as the source's
`except Exception` does. -/
def parseInstruction (key : Option String) (outcome : LLMOutcome)
    (dumps : JValue → String) (loads : String → Option JValue)
    (instruction : String) : List JValue :=
  match key with
  | none => ruleBasedParse instruction
  | some k =>
    if k = "" then ruleBasedParse instruction
    else
      match outcome with
      | .exn => ruleBasedParse instruction
      | .reply data =>
        match extractText dumps data with
        | .jstr s =>
          let opsJson := (reSearchArr s).getD s
          match loads opsJson with
          | some (.jarr ops) => ops
          | _ => ruleBasedParse instruction
        | _ => ruleBasedParse instruction

/-- The operation list the LLM path produces end to end, when it succeeds:
`none` when the call raised, the extracted text was not a string,
`json.loads` failed, or the decoded value was not a list. -/
def llmParsedList (outcome : LLMOutcome) (dumps : JValue → String)
    (loads : String → Option JValue) : Option (List JValue) :=
  match outcome with
  | .exn => none
  | .reply data =>
    match extractText dumps data with
    | .jstr s =>
      match loads ((reSearchArr s).getD s) with
      | some (.jarr ops) => some ops
      | _ => none
    | _ => none

/-! ## The clip editor

Embeds `VideoService` from `app/services/video_service.py`.  A decoded
clip carries a duration, an optional audio waveform and a frame list; each
frame is a list of RGB pixels with `Nat` channel values (uint8 frames have
channels below 256).  Every moviepy / PIL / filesystem call the service
makes is an oracle field of `ExtCalls`; every condition, conversion,
handler and status update written in `video_service.py` is embedded
explicitly. -/

/-- An in-memory decoded clip (moviepy `VideoFileClip`). -/
structure Clip where
  duration : ℚ
  audio : Option (List ℚ)
  frames : List (List (ℕ × ℕ × ℕ))
  deriving DecidableEq

/-- The data `_apply_texts_to_clip` computes for one rendered text overlay
before handing it to the compositing library. -/
structure TextSpec where
  content : String
  start : ℚ
  dur : ℚ
  fontsize : ℤ
  color : JValue
  font : Option JValue
  position : JValue
  deriving DecidableEq

/-- The external library and filesystem calls `VideoService` delegates to.
`renderOk` tells whether rendering a given overlay (TextClip, else the PIL
fallback) succeeds; `bwAvail` / `hasSpeedx` model the
`hasattr(vfx, ...)` probes. -/
structure ExtCalls where
  loadClip : Except PyExn Clip
  subclip : Clip → ℚ → ℚ → Except PyExn Clip
  removeNoise : List ℚ → List ℚ
  scaleVolume : List ℚ → ℚ → Except PyExn (List ℚ)
  bwAvail : Bool
  fxBlackwhite : Clip → Except PyExn Clip
  hasSpeedx : Bool
  speedx : Clip → ℚ → Except PyExn Clip
  renderOk : TextSpec → Bool
  composite : Clip → List TextSpec → Except PyExn Clip
  makeDirs : Except PyExn Unit
  writeVideo : Clip → Except PyExn Unit
  closeClip : Except PyExn Unit

/-- Embeds the trim step's interval computation
(video_service.py lines 237-241): when `trim_start` or `trim_end` is
truthy, convert both with `float()` (defaulting to `0`) and request
`[s, duration - trim_end]` from `subclip`; `none` when the step is skipped
because both values are falsy or a conversion raised
`ValueError`/`TypeError` (caught at line 242). -/
def trimIntervalRequested (tsv tev : Option JValue) (d : ℚ) : Option (ℚ × ℚ) :=
  if truthyOpt tsv || truthyOpt tev then
    match pyFloat (tsv.getD (.jnum 0)), pyFloat (tev.getD (.jnum 0)) with
    | .ok s, .ok te => some (s, d - te)
    | _, _ => none
  else none

/-- Embeds the volume step (video_service.py lines 249-258): skipped when
`commands.get("volume_boost", 1.0) != 1.0` is false under Python `==`;
otherwise `float()` the value and scale the audio when the boost differs
from 1 and an audio track exists, with `ValueError`/`TypeError` caught. -/
def volumeStep (ext : ExtCalls) (vbv : Option JValue) (clip : Clip) :
    Except PyExn Clip :=
  if pyEqJ (vbv.getD (.jnum 1)) (.jnum 1) then .ok clip
  else
    tryVT
      (match pyFloat (vbv.getD (.jnum 1)) with
       | .ok boost =>
         if boost = 1 then .ok clip
         else
           match clip.audio with
           | some a => (ext.scaleVolume a boost).map
               (fun a' => { clip with audio := some a' })
           | none => .ok clip
       | .error e => .error e)
      clip

/-- Embeds the speed step (video_service.py lines 267-273), structured
exactly like the volume step; the transform runs only when
`hasattr(vfx, 'speedx')` holds. -/
def speedStep (ext : ExtCalls) (spv : Option JValue) (clip : Clip) :
    Except PyExn Clip :=
  if pyEqJ (spv.getD (.jnum 1)) (.jnum 1) then .ok clip
  else
    tryVT
      (match pyFloat (spv.getD (.jnum 1)) with
       | .ok v =>
         if v = 1 then .ok clip
         else if ext.hasSpeedx then ext.speedx clip v else .ok clip
       | .error e => .error e)
      clip

/-- Floor of the base-2 logarithm of a positive rational, computed by
scanning powers of two downward from `2 ^ 16`.  Correct for magnitudes in
`[2 ^ (-23), 2 ^ 16)`; every value the embedded grayscale computation
rounds lies well inside that range (coefficients at least 0.114, lumas
below 256). -/
def floorLog2Aux : ℕ → ℚ → ℚ → ℤ → ℤ
  | 0, _, _, e => e
  | fuel + 1, q, p, e => if p ≤ q then e else floorLog2Aux fuel q (p / 2) (e - 1)

/-- Floor of the base-2 logarithm (see `floorLog2Aux` for the valid range). -/
def floorLog2 (q : ℚ) : ℤ := floorLog2Aux 40 q (2 ^ 16) 16

/-- Round half to even of a rational to an integer. -/
def rhe (m : ℚ) : ℤ :=
  if m - ⌊m⌋ < 1/2 then ⌊m⌋
  else if (1/2 : ℚ) < m - ⌊m⌋ then ⌊m⌋ + 1
  else if ⌊m⌋ % 2 = 0 then ⌊m⌋ else ⌊m⌋ + 1

/-- The positive case of `roundDouble`: round to 53 significant bits. -/
def roundDoublePos (a : ℚ) : ℚ :=
  let k := (52 - floorLog2 a).toNat
  (rhe (a * 2 ^ k) : ℚ) / 2 ^ k

/-- Exactly rounds a rational to the nearest IEEE binary64 double (round
to nearest, ties to even).  Valid for magnitudes in `floorLog2`'s range —
normal, non-overflowing doubles, which covers every value of the embedded
grayscale computation; zero maps to zero. -/
def roundDouble (q : ℚ) : ℚ :=
  if q = 0 then 0
  else if q < 0 then -roundDoublePos (-q) else roundDoublePos q

/-- The binary64 value of the literal `0.299`. -/
def c299 : ℚ := roundDouble (299/1000)

/-- The binary64 value of the literal `0.587`. -/
def c587 : ℚ := roundDouble (587/1000)

/-- The binary64 value of the literal `0.114`. -/
def c114 : ℚ := roundDouble (114/1000)

/-- Embeds the per-pixel luma of the grayscale lambda
(video_service.py line 265),
`np.dstack([np.dot(im[..., :3], [0.299, 0.587, 0.114])] * 3).astype('uint8')`,
in the float64 arithmetic numpy uses: the coefficients are the binary64
values of the decimal literals, each product and each partial sum
(accumulated left to right, numpy's inner dot loop) is rounded to
binary64, and the `astype('uint8')` cast truncates toward zero and
reduces modulo 256. -/
def grayLuma (r g b : ℕ) : ℕ :=
  let s := roundDouble (roundDouble (roundDouble (c299 * r) + roundDouble (c587 * g)) +
    roundDouble (c114 * b))
  (⌊s⌋).toNat % 256

/-- The grayscale lambda on one RGB pixel: the luma replicated across the
three channels. -/
def grayPix (p : ℕ × ℕ × ℕ) : ℕ × ℕ × ℕ :=
  let y := grayLuma p.1 p.2.1 p.2.2
  (y, y, y)

/-- The grayscale lambda applied to a whole frame. -/
def grayscaleFrame (frame : List (ℕ × ℕ × ℕ)) : List (ℕ × ℕ × ℕ) :=
  frame.map grayPix

/-- Embeds the per-overlay body of `_apply_texts_to_clip`
(video_service.py lines 126-139): `ok none` models `continue` on empty
text, `error` a raised exception that the per-overlay handler at line 210
catches, and `ok (some spec)` an overlay handed to the renderer.  The
duration is `max(0.01, min(end, duration) - start)` with `end` defaulting
to the clip duration when missing or `None`. -/
def overlayOne (duration : ℚ) (t : JValue) : Except PyExn (Option TextSpec) := do
  let content := pyStr (← jGetD t "text" (.jstr ""))
  if content = "" then return none
  let start ← pyFloat ((← jGetOpt t "start").getD (.jnum 0))
  let endv ← jGetOpt t "end"
  let endr ←
    match endv with
    | none => pure duration
    | some .jnull => pure duration
    | some e => pyFloat e
  let dur := max (1/100 : ℚ) (min endr duration - start)
  let fontsize ← pyInt ((← jGetOpt t "fontsize").getD (.jnum 40))
  let color := (← jGetOpt t "color").getD (.jstr "white")
  let fontPath ← jGetOpt t "font"
  let position := (← jGetOpt t "position").getD (.jstr "center")
  return some { content := content, start := start, dur := dur,
                fontsize := fontsize, color := color, font := fontPath,
                position := position }

/-- Embeds the `for` loop of `_apply_texts_to_clip`
(video_service.py lines 125-211), including the failure mode of its own
handler: `except Exception` logs an f-string that references `content`,
and `content = str(t.get("text", ""))` is the first statement of the loop
body, so a dict item always binds `content` before it can raise, while a
non-dict item raises at `.get` without binding it.  When the handler runs
with `content` never yet bound (a non-dict item before any dict item) the
f-string itself raises `UnboundLocalError`, which propagates out of the
loop; otherwise the handler logs and that overlay alone is skipped.
`bound` records whether an earlier iteration has assigned `content`; an
overlay whose rendering fails (`renderOk` false, TextClip and the PIL
fallback both raising) is likewise skipped by the handler. -/
def overlayLoop (d : ℚ) (renderOk : TextSpec → Bool) :
    List JValue → Bool → Except PyExn (List TextSpec)
  | [], _ => .ok []
  | t :: ts, bound =>
    match t with
    | .jobj fs =>
      match overlayOne d (.jobj fs) with
      | .ok (some spec) =>
        (overlayLoop d renderOk ts true).map
          (fun rest => if renderOk spec then spec :: rest else rest)
      | .ok none => overlayLoop d renderOk ts true
      | .error _ => overlayLoop d renderOk ts true
    | _ =>
      if bound then overlayLoop d renderOk ts bound
      else .error (.otherError "UnboundLocalError")

/-- The outcome of the whole overlay loop of `_apply_texts_to_clip`,
started with `content` unbound: either the list of overlays appended to
`text_clips`, or the exception the loop's own handler raised. -/
def overlayStep (duration : ℚ) (renderOk : TextSpec → Bool)
    (texts : List JValue) : Except PyExn (List TextSpec) :=
  overlayLoop duration renderOk texts false

/-- Embeds `_apply_texts_to_clip` (video_service.py lines 118-225) at the
clip level: falsy input returns the clip unchanged; iterating a nonempty
string or dict yields non-dict items whose `.get` raises with `content`
still unbound, so the handler raises `UnboundLocalError` out of the
function, while iterating a number/bool raises a `TypeError`; when no
overlay survives the clip is returned unchanged, otherwise the
composition is delegated to the library. -/
def applyTextsClip (ext : ExtCalls) (clip : Clip) (texts : JValue) :
    Except PyExn Clip :=
  if truthy texts = false then .ok clip
  else do
    let items : List JValue ←
      match texts with
      | .jarr ts => pure ts
      | .jstr s => pure (s.data.map (fun c => .jstr ⟨[c]⟩))
      | .jobj fs => pure (fs.map (fun kv => .jstr kv.1))
      | _ => throw .typeError
    let specs ← overlayStep clip.duration ext.renderOk items
    if specs.isEmpty then pure clip
    else ext.composite clip specs

/-- Embeds the body of the `try` block of `edit_video_by_instruction`
(video_service.py lines 234-298): the sequential pipeline over the decoded
clip, ending in the encode/close calls and returning the output path. -/
def editBody (ext : ExtCalls) (commands : JValue) (outPath : String) :
    Except PyExn String := do
  let clip ← ext.loadClip
  let tsv ← jGetOpt commands "trim_start"
  let tev ← jGetOpt commands "trim_end"
  let clip ←
    match trimIntervalRequested tsv tev clip.duration with
    | some (s, e) => tryVT (ext.subclip clip s e) clip
    | none => pure clip
  let rnv ← jGetOpt commands "remove_noise"
  let clip ←
    if truthyOpt rnv && clip.audio.isSome then
      pure { clip with audio := clip.audio.map ext.removeNoise }
    else pure clip
  let vbv ← jGetOpt commands "volume_boost"
  let clip ← volumeStep ext vbv clip
  let gsv ← jGetOpt commands "grayscale"
  let clip ←
    if truthyOpt gsv then
      if ext.bwAvail then ext.fxBlackwhite clip
      else pure { clip with frames := clip.frames.map grayscaleFrame }
    else pure clip
  let spv ← jGetOpt commands "speed"
  let clip ← speedStep ext spv clip
  let txv ← jGetOpt commands "texts"
  let clip ←
    if truthyOpt txv then applyTextsClip ext clip (txv.getD .jnull)
    else pure clip
  let _ ← ext.makeDirs
  let _ ← ext.writeVideo clip
  let _ ← ext.closeClip
  pure outPath

/-- The structured result dict `edit_video_by_instruction` returns. -/
structure EditResult where
  status : String
  output_path : Option String
  message : Option String
  operations : Option JValue
  deriving DecidableEq

/-- The in-memory status tracker `self.processing_status`. -/
def StatusMap : Type := String → Option String

/-- Models `self.processing_status[k] = v`. -/
def setStatus (m : StatusMap) (k v : String) : StatusMap :=
  fun i => if i = k then some v else m i

/-- Embeds `get_status` (video_service.py lines 304-305):
`self.processing_status.get(video_id, "unknown")`. -/
def get_status (m : StatusMap) (k : String) : String :=
  (m k).getD "unknown"

/-- Embeds `edit_video_by_instruction` (video_service.py lines 227-302):
set the tracker to `"processing"`, run the pipeline, and either report
success (tracker set to `"completed"`) or catch the exception into a
structured error result.  `commands` is the dict `_get_ai_instructions`
returned (that helper catches its own exceptions and returns `{}`), and
`outPath` the timestamp-derived output path the source builds. -/
def editVideo (ext : ExtCalls) (videoId outPath : String) (commands : JValue)
    (st : StatusMap) : EditResult × StatusMap :=
  let st := setStatus st videoId "processing"
  match editBody ext commands outPath with
  | .ok p =>
    ({ status := "success", output_path := some p, message := none,
       operations := some commands }, setStatus st videoId "completed")
  | .error e =>
    ({ status := "error", output_path := none, message := some e.msg,
       operations := none }, st)

/-- A concrete decoded clip used by the witnesses. -/
def exClip : Clip :=
  { duration := 10, audio := some [0, 1/2, 1],
    frames := [[(255, 0, 0), (0, 255, 0)]] }

/-- A concrete external-call environment in which every library call
succeeds, used by the witnesses. -/
def exExt : ExtCalls where
  loadClip := .ok exClip
  subclip := fun c _ _ => .ok c
  removeNoise := id
  scaleVolume := fun a _ => .ok a
  bwAvail := false
  fxBlackwhite := fun c => .ok c
  hasSpeedx := true
  speedx := fun c _ => .ok c
  renderOk := fun _ => true
  composite := fun c _ => .ok c
  makeDirs := .ok ()
  writeVideo := fun _ => .ok ()
  closeClip := .ok ()

example : ruleBasedParse "please remove the noise" = [denoiseOp] := by decide
example : ruleBasedParse "hello" = [upscaleOp] := by decide
example : ruleBasedParse "Crop to 16:9 and DENOISE" = [denoiseOp, cropOp] := by decide
example : reSearchArr "xx[1,2]yy" = some "[1,2]" := by decide
example : reSearchArr "a ] b [ c" = none := by decide
example : reSearchArr "pre [x] mid [y] post" = some "[x] mid [y]" := by decide

/-! ## Claims about the instruction parser -/

/-- C7: for every instruction whose lower-cased form contains the
substring "denoise" or "noise", the rule-based parser's output includes
the operation tagged "denoise". -/
theorem rule_parse_includes_denoise (instruction : String)
    (h : containsSub (pyLower instruction) "denoise" = true ∨
         containsSub (pyLower instruction) "noise" = true) :
    denoiseOp ∈ ruleBasedParse instruction := by
  have hc : (containsSub (pyLower instruction) "denoise" ||
      containsSub (pyLower instruction) "noise" ||
      containsSub (pyLower instruction) "remove noise") = true := by
    rcases h with h | h <;> simp [h]
  simp [ruleBasedParse, hc]

theorem rule_parse_includes_denoise_witness :
    denoiseOp ∈ ruleBasedParse "add noise please" :=
  rule_parse_includes_denoise "add noise please" (Or.inr (by decide))

/-- C8: for every instruction matching none of the parser's keyword
groups, the rule-based parser returns exactly one operation, tagged
"upscale" with empty parameters. -/
theorem rule_parse_default_upscale (instruction : String)
    (h1 : (containsSub (pyLower instruction) "denoise" ||
        containsSub (pyLower instruction) "noise" ||
        containsSub (pyLower instruction) "remove noise") = false)
    (h2 : (containsSub (pyLower instruction) "stabil" ||
        containsSub (pyLower instruction) "steady") = false)
    (h3 : (containsSub (pyLower instruction) "brightness" ||
        containsSub (pyLower instruction) "color" ||
        containsSub (pyLower instruction) "contrast") = false)
    (h4 : (containsSub (pyLower instruction) "crop" ||
        containsSub (pyLower instruction) "resize" ||
        containsSub (pyLower instruction) "aspect") = false) :
    ruleBasedParse instruction = [upscaleOp] := by
  simp [ruleBasedParse, h1, h2, h3, h4]

theorem rule_parse_default_upscale_witness :
    ruleBasedParse "hello there" = [upscaleOp] :=
  rule_parse_default_upscale "hello there" (by decide) (by decide) (by decide)
    (by decide)

/-- C10: when the `GEMINI_API_KEY` environment variable is unset or empty,
`parse_instruction` returns exactly `_rule_based_parse(instruction)`,
whatever the external call would have produced. -/
theorem parse_instruction_without_key (key : Option String)
    (outcome : LLMOutcome) (dumps : JValue → String)
    (loads : String → Option JValue) (instruction : String)
    (h : key = none ∨ key = some "") :
    parseInstruction key outcome dumps loads instruction =
      ruleBasedParse instruction := by
  rcases h with h | h <;> subst h <;> simp [parseInstruction]

theorem parse_instruction_without_key_witness :
    parseInstruction none .exn (fun _ => "") (fun _ => none) "make it steady" =
      ruleBasedParse "make it steady" :=
  parse_instruction_without_key none .exn (fun _ => "") (fun _ => none)
    "make it steady" (Or.inl rfl)

/-- C1: whenever the LLM path fails to produce a list — the external call
raised, the extracted reply text was not a string, `json.loads` failed, or
the decoded value was not a list — `parse_instruction` returns exactly the
rule-based parser's result for the same instruction; partial LLM results
are never merged in. -/
theorem parse_instruction_fallback (key : Option String)
    (outcome : LLMOutcome) (dumps : JValue → String)
    (loads : String → Option JValue) (instruction : String)
    (h : llmParsedList outcome dumps loads = none) :
    parseInstruction key outcome dumps loads instruction =
      ruleBasedParse instruction := by
  cases key with
  | none => rfl
  | some k =>
    by_cases hk : k = ""
    · subst hk; simp [parseInstruction]
    · cases outcome with
      | exn => simp [parseInstruction, hk]
      | reply data =>
        simp only [llmParsedList] at h
        simp only [parseInstruction, if_neg hk]
        cases het : extractText dumps data with
        | jstr s =>
          simp only [het] at h ⊢
          cases hl : loads ((reSearchArr s).getD s) with
          | none => simp [hl]
          | some v =>
            cases v <;> simp [hl] at h ⊢
        | jnull => rfl
        | jbool b => rfl
        | jnum q => rfl
        | jarr xs => rfl
        | jobj fs => rfl

theorem parse_instruction_fallback_witness :
    parseInstruction (some "k") .exn (fun _ => "") (fun _ => none)
        "add noise" = ruleBasedParse "add noise" :=
  parse_instruction_fallback (some "k") .exn (fun _ => "") (fun _ => none)
    "add noise" rfl

/-! ## Claims about the clip editor -/

/-- C2: `edit_video_by_instruction` never raises past its own boundary:
for every environment it returns either a success result carrying an
output path or an error result carrying a message. -/
theorem edit_video_structured_result (ext : ExtCalls) (videoId outPath : String)
    (commands : JValue) (st : StatusMap) :
    ((editVideo ext videoId outPath commands st).1.status = "success" ∧
      ((editVideo ext videoId outPath commands st).1.output_path).isSome = true) ∨
    ((editVideo ext videoId outPath commands st).1.status = "error" ∧
      ((editVideo ext videoId outPath commands st).1.message).isSome = true) := by
  unfold editVideo
  cases editBody ext commands outPath <;> simp

/-- C9: the tracker only ever stores "processing" or "completed" (never
"failed"); `edit_video_by_instruction` sets the identifier to "processing"
on entry, to "completed" on success, leaves it at "processing" on failure,
and `get_status` answers "unknown" for identifiers with no entry. -/
theorem status_tracker_lifecycle (ext : ExtCalls) (videoId outPath : String)
    (commands : JValue) (st : StatusMap) :
    (∀ i v, (editVideo ext videoId outPath commands st).2 i = some v →
        st i = some v ∨ v = "processing" ∨ v = "completed") ∧
    ((editVideo ext videoId outPath commands st).1.status = "success" →
        (editVideo ext videoId outPath commands st).2 videoId = some "completed") ∧
    ((editVideo ext videoId outPath commands st).1.status = "error" →
        (editVideo ext videoId outPath commands st).2 videoId = some "processing") ∧
    (∀ i, st i = none → get_status st i = "unknown") := by
  unfold editVideo
  cases editBody ext commands outPath with
  | ok p =>
    refine ⟨fun i v h => ?_, fun _ => ?_, fun h => ?_, fun i h => ?_⟩
    · by_cases hi : i = videoId <;> simp [setStatus, hi] at h <;> simp [h]
    · simp [setStatus]
    · simp at h
    · simp [get_status, h]
  | error e =>
    refine ⟨fun i v h => ?_, fun h => ?_, fun _ => ?_, fun i h => ?_⟩
    · by_cases hi : i = videoId <;> simp [setStatus, hi] at h <;> simp [h]
    · simp at h
    · simp [setStatus]
    · simp [get_status, h]

theorem status_tracker_lifecycle_witness :
    (editVideo exExt "clip.mp4" "out.mp4" (.jobj []) (fun _ => none)).2
        "clip.mp4" = some "completed" :=
  (status_tracker_lifecycle exExt "clip.mp4" "out.mp4" (.jobj [])
    (fun _ => none)).2.1 (by decide)

/-- C6: the volume step is the identity when the boost factor equals 1.0
under Python equality or the clip has no audio track: the clip, audio
waveform included, is returned numerically unchanged. -/
theorem volume_step_noop (ext : ExtCalls) (vbv : Option JValue) (clip : Clip)
    (h : pyEqJ (vbv.getD (.jnum 1)) (.jnum 1) = true ∨ clip.audio = none) :
    volumeStep ext vbv clip = .ok clip := by
  rcases h with h | h
  · simp [volumeStep, h]
  · unfold volumeStep
    split
    · rfl
    · cases hf : pyFloat (vbv.getD (.jnum 1)) with
      | ok q => by_cases hq : q = 1 <;> simp [tryVT, h, hq]
      | error e =>
        cases hv : vbv.getD (.jnum 1) <;> rw [hv] at hf <;>
          simp [pyFloat] at hf <;> simp [← hf, tryVT]

theorem volume_step_noop_witness :
    volumeStep exExt (some (.jnum 1)) exClip = .ok exClip :=
  volume_step_noop exExt (some (.jnum 1)) exClip (Or.inl (by decide))

/-- The luma the grayscale lambda produces is always below 256. -/
theorem grayLuma_lt (r g b : ℕ) : grayLuma r g b < 256 := by
  simp only [grayLuma]
  omega

set_option maxRecDepth 10000 in
set_option maxHeartbeats 2000000 in
/-- On the 256 gray levels (the outputs of a first grayscale pass), a
second pass reproduces the level or drops it by exactly one — an
exhaustive check of the float64 computation. -/
theorem grayLuma_gray_drop :
    ∀ y < 256, grayLuma y y y = y ∨ grayLuma y y y + 1 = y := by
  with_unfolding_all decide

/-- C5 counterexample: in the program's float64 arithmetic the grayscale
transformation is not idempotent.  The binary64 values of 0.299, 0.587
and 0.114 sum to just below 1, so the pixel (0, 0, 9) grays to luma 1 on
the first pass, and a second pass maps (1, 1, 1) to
`int(0.9999999999999999) = 0`. -/
theorem grayscale_idem_refuted :
    grayscaleFrame [(0, 0, 9)] = [(1, 1, 1)] ∧
    grayscaleFrame (grayscaleFrame [(0, 0, 9)]) = [(0, 0, 0)] ∧
    grayscaleFrame (grayscaleFrame [(0, 0, 9)]) ≠ grayscaleFrame [(0, 0, 9)] := by
  refine ⟨?_, ?_, ?_⟩ <;> with_unfolding_all decide

/-- C5 (amended): the grayscale transformation — per pixel the float64
weighted sum 0.299·R + 0.587·G + 0.114·B replicated across the three
channels and cast to uint8 — is idempotent only up to a one-level
rounding drop: every pixel of `grayscale (grayscale x)` either equals the
corresponding pixel of `grayscale x` or is the gray level exactly one
below it. -/
theorem grayscale_almost_idempotent (frame : List (ℕ × ℕ × ℕ)) :
    List.Forall₂
      (fun p q => p = q ∨ (p.1 + 1 = q.1 ∧ p = (q.1 - 1, q.1 - 1, q.1 - 1)))
      (grayscaleFrame (grayscaleFrame frame)) (grayscaleFrame frame) := by
  unfold grayscaleFrame
  rw [List.map_map]
  induction frame with
  | nil => exact List.Forall₂.nil
  | cons p ps ih =>
    refine List.Forall₂.cons ?_ ih
    obtain ⟨r, g, b⟩ := p
    show (fun p q => p = q ∨ (p.1 + 1 = q.1 ∧ p = (q.1 - 1, q.1 - 1, q.1 - 1)))
      (grayPix (grayPix (r, g, b))) (grayPix (r, g, b))
    rcases grayLuma_gray_drop (grayLuma r g b) (grayLuma_lt r g b) with h | h
    · left
      simp [grayPix, h]
    · right
      constructor
      · simpa [grayPix] using h
      · simp only [grayPix]
        refine Prod.ext ?_ (Prod.ext ?_ ?_) <;> simp <;> omega

/-- C3 counterexample: the trim step does not clamp the requested interval
to `[0, duration]`, nor does it skip empty or inverted intervals itself:
with `trim_start = -5` on a 10-second clip it requests the interval
`[-5, 10]` from the subclip call, whose left end is negative. -/
theorem trim_clamp_refuted :
    ¬ (∀ (tsv tev : Option JValue) (d p1 p2 : ℚ),
        trimIntervalRequested tsv tev d = some (p1, p2) →
        0 ≤ p1 ∧ p1 ≤ p2 ∧ p2 ≤ d) := by
  intro h
  have harg : trimIntervalRequested (some (.jnum (-5))) none 10 =
      some (-5, 10) := by
    unfold trimIntervalRequested
    norm_num [truthyOpt, truthy, pyFloat]
  have hx := h (some (.jnum (-5))) none 10 (-5) 10 harg
  exact absurd hx.1 (by norm_num)

/-- C3 (amended): the trim step computes the interval
`[trim_start, duration - trim_end]` and requests exactly that interval
from the subclip call — unclamped — whenever the values are numeric and at
least one of them is truthy; conversion failures are caught, so invalid
values skip the trim instead of crashing.  With `trim_start = 2`,
`trim_end = 1` on a 10-second clip the requested interval is `[2, 9]`,
7 seconds long. -/
theorem trim_request_amended (ts te d : ℚ) (h : ts ≠ 0 ∨ te ≠ 0) :
    trimIntervalRequested (some (.jnum ts)) (some (.jnum te)) d =
      some (ts, d - te) := by
  unfold trimIntervalRequested
  have hc : (truthyOpt (some (.jnum ts)) || truthyOpt (some (.jnum te))) = true := by
    rcases h with h | h <;> simp [truthyOpt, truthy, h]
  rw [if_pos hc]
  rfl

theorem trim_request_amended_witness :
    trimIntervalRequested (some (.jnum 2)) (some (.jnum 1)) 10 = some (2, 9) ∧
      ((10 : ℚ) - 1) - 2 = 7 := by
  refine ⟨?_, by norm_num⟩
  rw [trim_request_amended 2 1 10 (Or.inl (by norm_num))]
  norm_num

/-- Definitional unfolding of `overlayLoop` at a dict head item. -/
theorem overlayLoop_cons_obj (d : ℚ) (renderOk : TextSpec → Bool)
    (fs : List (String × JValue)) (ts : List JValue) (bound : Bool) :
    overlayLoop d renderOk (.jobj fs :: ts) bound =
      match overlayOne d (.jobj fs) with
      | .ok (some spec) =>
        (overlayLoop d renderOk ts true).map
          (fun rest => if renderOk spec then spec :: rest else rest)
      | .ok none => overlayLoop d renderOk ts true
      | .error _ => overlayLoop d renderOk ts true := rfl

/-- Evaluation helper: `overlayOne` on an overlay dict with a nonempty
text, a numeric start and a numeric end. -/
theorem overlayOne_eval (d s e : ℚ) (c : String) (hc : c ≠ "") :
    overlayOne d (.jobj [("text", .jstr c), ("start", .jnum s), ("end", .jnum e)]) =
      .ok (some { content := c, start := s, dur := max (1/100) (min e d - s),
                  fontsize := 40, color := .jstr "white", font := none,
                  position := .jstr "center" }) := by
  unfold overlayOne
  simp [jGetD, jGetOpt, lookupKey, pyStr, pyFloat, pyInt, bind, Except.bind,
    pure, Except.pure, Except.map, hc]

/-- C4 counterexample: an overlay whose start (5) is at or past its end
clamped to the clip duration (`min 3 10 = 3`) is not skipped: the overlay
step hands the renderer a text clip for it with the clamped minimal
duration 0.01, so it does contribute to the composition. -/
theorem overlay_skip_refuted :
    (5 : ℚ) ≥ min 3 10 ∧
    overlayStep 10 (fun _ => true)
        [.jobj [("text", .jstr "hi"), ("start", .jnum 5), ("end", .jnum 3)]] =
      .ok [{ content := "hi", start := 5, dur := 1/100, fontsize := 40,
             color := .jstr "white", font := none, position := .jstr "center" }] ∧
    overlayStep 10 (fun _ => true)
        [.jobj [("text", .jstr "hi"), ("start", .jnum 5), ("end", .jnum 3)]] ≠
      .ok [] := by
  have hone := overlayOne_eval 10 5 3 "hi" (by decide)
  have hdur : max (1/100 : ℚ) (min 3 10 - 5) = 1/100 := by
    rw [max_eq_left (by norm_num)]
  rw [hdur] at hone
  have hstep : overlayStep 10 (fun _ => true)
      [.jobj [("text", .jstr "hi"), ("start", .jnum 5), ("end", .jnum 3)]] =
      .ok [{ content := "hi", start := 5, dur := 1/100, fontsize := 40,
             color := .jstr "white", font := none, position := .jstr "center" }] := by
    unfold overlayStep overlayLoop
    simp [hone, overlayLoop, Except.map]
  refine ⟨by norm_num, hstep, ?_⟩
  rw [hstep]
  simp

/-- C4 (amended): an overlay whose start is at or past its end clamped to
the clip duration is not skipped — it is processed with its duration
clamped up to the 0.01-second minimum and handed to the renderer — and
the pipeline does not crash on it; overlay rendering failures (TextClip
and the PIL fallback both raising) are handled per overlay: that overlay
alone is dropped while the remaining overlays are still applied. -/
theorem overlay_min_duration (d s e : ℚ) (c : String)
    (hc : c ≠ "") (hse : min e d ≤ s) :
    (overlayOne d (.jobj [("text", .jstr c), ("start", .jnum s), ("end", .jnum e)]) =
      .ok (some { content := c, start := s, dur := 1/100, fontsize := 40,
                  color := .jstr "white", font := none,
                  position := .jstr "center" })) ∧
    (∀ (renderOk : TextSpec → Bool) (fs : List (String × JValue))
        (spec : TextSpec) (ts : List JValue) (bound : Bool),
        overlayOne d (.jobj fs) = .ok (some spec) → renderOk spec = false →
        overlayLoop d renderOk (.jobj fs :: ts) bound =
          overlayLoop d renderOk ts true) := by
  constructor
  · have hdur : max (1/100 : ℚ) (min e d - s) = 1/100 :=
      max_eq_left (le_trans (sub_nonpos.mpr hse) (by norm_num))
    rw [overlayOne_eval d s e c hc, hdur]
  · intro renderOk fs spec ts bound h hr
    rw [overlayLoop_cons_obj, h]
    simp only [hr]
    cases overlayLoop d renderOk ts true <;> simp [Except.map]

theorem overlay_min_duration_witness :
    (overlayOne 10 (.jobj [("text", .jstr "hi"), ("start", .jnum 5), ("end", .jnum 3)]) =
      .ok (some { content := "hi", start := 5, dur := 1/100, fontsize := 40,
                  color := .jstr "white", font := none,
                  position := .jstr "center" })) ∧
    overlayLoop 10 (fun _ => false)
        [.jobj [("text", .jstr "x"), ("start", .jnum 5), ("end", .jnum 3)],
         .jobj [("text", .jstr "ok"), ("start", .jnum 0)]] false =
      overlayLoop 10 (fun _ => false)
        [.jobj [("text", .jstr "ok"), ("start", .jnum 0)]] true :=
  ⟨(overlay_min_duration 10 5 3 "hi" (by decide) (by norm_num)).1,
    (overlay_min_duration 10 5 3 "x" (by decide) (by norm_num)).2
      (fun _ => false)
      [("text", .jstr "x"), ("start", .jnum 5), ("end", .jnum 3)]
      { content := "x", start := 5, dur := 1/100,
        fontsize := 40, color := .jstr "white", font := none,
        position := .jstr "center" }
      [.jobj [("text", .jstr "ok"), ("start", .jnum 0)]] false
      ((overlay_min_duration 10 5 3 "x" (by decide) (by norm_num)).1) rfl⟩
